import Mathlib

/-!
Verification of the dual-rack bike-lock controller (main ESP32 sketch).

The definitions below are a shallow embedding of the sketch's globals and
functions.  Timestamps are the values of the 32-bit millisecond counter
(unsigned long on the target), so subtraction and addition on them are done
modulo 2^32, exactly as in the C source.  Hardware effects are modelled as
state fields: relay drive pins, the buzzer, the RAM event log.  Two external
effects are modelled as oracles passed in by the caller: the raw limit-switch
samples (parameters of updateBikePresence) and the HTTP SMS-gateway outcome
(a Bool parameter of sendViaPhoneGateway, covering both the WiFi-mode check
and the HTTP response code).  Display-only calls (lcd2, uiShow*) have no
modelled effect; blocking delay(...) calls advance the returned clock.
-/

namespace BikeRack

/-- 2^32, the modulus of the target's unsigned long arithmetic. -/
def U32 : Nat := 4294967296

/-- Unsigned 32-bit subtraction a - b (wrapping), as computed on unsigned long. -/
def usub32 (a b : Nat) : Nat := (a + (U32 - b % U32)) % U32

/-- Unsigned 32-bit addition (wrapping). -/
def uadd32 (a b : Nat) : Nat := (a + b) % U32

/-- millis()-based subtraction agrees with Nat subtraction when no wraparound. -/
lemma usub32_eq_sub (a b : Nat) (hba : b ≤ a) (hb : b < U32) (hd : a - b < U32) :
    usub32 a b = a - b := by
  unfold usub32
  rw [Nat.mod_eq_of_lt hb]
  have h1 : a + (U32 - b) = (a - b) + U32 := by
    have : b ≤ U32 := Nat.le_of_lt hb
    omega
  rw [h1, Nat.add_mod_right, Nat.mod_eq_of_lt hd]

-- Constants from the source.
def SMS_COOLDOWN_MS : Nat := 30000
def ACTUATOR_MOVE_TIME_MS : Nat := 8000
def SW_DEBOUNCE_MS : Nat := 60
def LOG_MAX : Nat := 80
def RELAY_ACTIVE_LOW : Bool := true

/-- GPIO levels: false = LOW, true = HIGH. -/
def LOW : Bool := false
def HIGH : Bool := true

def relayOnLevel : Bool := if RELAY_ACTIVE_LOW then LOW else HIGH
def relayOffLevel : Bool := if RELAY_ACTIVE_LOW then HIGH else LOW

inductive MotionState where
  | MOTION_IDLE
  | MOTION_EXTEND
  | MOTION_RETRACT
deriving DecidableEq

export MotionState (MOTION_IDLE MOTION_EXTEND MOTION_RETRACT)

structure RackMotion where
  state : MotionState
  startMs : Nat
deriving DecidableEq

/-- The pin levels of the two relays (A, B) driving one actuator. -/
structure RelayPair where
  a : Bool
  b : Bool
deriving DecidableEq

/-- struct Rack.  The immutable tagUid/tagLen fields (fixed 4-byte constants
assigned once in setup) are omitted: no modelled operation reads or writes
them; credential matching is outside the claims under verification. -/
structure Rack where
  ownerName : String
  ownerNumber : String
  locked : Bool
  tamperLatched : Bool
deriving DecidableEq

inductive UiState where
  | UI_IDLE
  | UI_ENTER_NUMBER
  | UI_WAIT_RFID_LOCK
deriving DecidableEq

export UiState (UI_IDLE UI_ENTER_NUMBER UI_WAIT_RFID_LOCK)

structure LogEntry where
  ms : Nat
  msg : String
deriving DecidableEq

/-- The RAM event-log ring: logs[LOG_MAX], logHead, logCount. -/
structure LogState where
  logs : List LogEntry
  logHead : Nat
  logCount : Nat
deriving DecidableEq

def initLogState : LogState :=
  { logs := List.replicate LOG_MAX ⟨0, ""⟩, logHead := 0, logCount := 0 }

/-- void addLog(const String and message). -/
def addLog (now : Nat) (message : String) (st : LogState) : LogState :=
  { logs := st.logs.set st.logHead ⟨now, message⟩
    logHead := (st.logHead + 1) % LOG_MAX
    logCount := if st.logCount < LOG_MAX then st.logCount + 1 else st.logCount }

/-- The sequence of log entries emitted by logsJson, in emission order
(newest first).  The JSON punctuation, uptime formatting and character
escaping of the source are presentation only and are not modelled. -/
def logsJson (st : LogState) : List LogEntry :=
  (List.range st.logCount).map
    (fun i => st.logs.getD ((st.logHead + LOG_MAX - 1 - i) % LOG_MAX) ⟨0, ""⟩)

/-- All mutable globals of the sketch that the modelled operations touch. -/
structure Sys where
  racks : Rack × Rack
  rackMotion : RackMotion × RackMotion
  /-- Levels currently written to the two relay pins of each rack. -/
  relays : RelayPair × RelayPair
  bikePresent : Bool × Bool
  lastBikePresent : Bool × Bool
  lastSwChangeMs : Nat × Nat
  lastSmsMillis : Nat × Nat
  logs : LogState
  uiState : UiState
  uiSelectedRack : Int
  uiNum : String
  lastEvent : String
  buzzerOn : Bool
  buzzerOffAtMs : Nat
deriving DecidableEq

/-- Read component i of a two-element global array. -/
def get2 {α : Type} (p : α × α) (i : Fin 2) : α := if i = 0 then p.1 else p.2

/-- Write component i of a two-element global array. -/
def set2 {α : Type} (p : α × α) (i : Fin 2) (x : α) : α × α :=
  if i = 0 then (x, p.2) else (p.1, x)

/-- Array access racks[uiSelectedRack] with the source's int index.  Only 0
and 1 are reachable as indices in the source (out-of-range access would be
undefined behaviour there); any nonzero index selects the second component. -/
def get2i {α : Type} (p : α × α) (r : Int) : α := if r = 0 then p.1 else p.2

def set2i {α : Type} (p : α × α) (r : Int) (x : α) : α × α :=
  if r = 0 then (x, p.2) else (p.1, x)

lemma fin2_cases (i : Fin 2) : i = 0 ∨ i = 1 := by
  rcases i with ⟨v, hv⟩
  match v, hv with
  | 0, _ => exact Or.inl rfl
  | 1, _ => exact Or.inr rfl

@[simp] lemma get2_zero {α : Type} (p : α × α) : get2 p 0 = p.1 := rfl

@[simp] lemma get2_one {α : Type} (p : α × α) : get2 p 1 = p.2 := rfl

@[simp] lemma set2_zero {α : Type} (p : α × α) (x : α) : set2 p 0 x = (x, p.2) := rfl

@[simp] lemma set2_one {α : Type} (p : α × α) (x : α) : set2 p 1 x = (p.1, x) := rfl

def addLogS (now : Nat) (message : String) (s : Sys) : Sys :=
  { s with logs := addLog now message s.logs }

/-- void buzzerOnFor(unsigned long ms): digitalWrite HIGH and set the off deadline. -/
def buzzerOnFor (ms : Nat) (now : Nat) (s : Sys) : Sys :=
  { s with buzzerOn := true, buzzerOffAtMs := uadd32 now ms }

-- ==================== MotionController ====================

/-- void rackSetStop(int rack): both relay pins to the off level. -/
def rackSetStop (i : Fin 2) (s : Sys) : Sys :=
  { s with relays := set2 s.relays i ⟨relayOffLevel, relayOffLevel⟩ }

/-- void rackSetExtend(int rack): relay A on, relay B off. -/
def rackSetExtend (i : Fin 2) (s : Sys) : Sys :=
  { s with relays := set2 s.relays i ⟨relayOnLevel, relayOffLevel⟩ }

/-- void rackSetRetract(int rack): relay A off, relay B on. -/
def rackSetRetract (i : Fin 2) (s : Sys) : Sys :=
  { s with relays := set2 s.relays i ⟨relayOffLevel, relayOnLevel⟩ }

/-- void startMotionForRack(int rack, bool lockedTarget).
Returns (state, clock after the 50 ms settling delay, sampled relay
snapshots).  The snapshots are the relay levels held during the settling
pause and the levels driven afterwards. -/
def startMotionForRack (i : Fin 2) (lockedTarget : Bool) (now : Nat) (s : Sys) :
    Sys × Nat × List (RelayPair × RelayPair) :=
  let s1 := rackSetStop i s
  let now1 := now + 50
  let s2 := { s1 with rackMotion := (set2 s1.rackMotion i
                ⟨if lockedTarget then MOTION_EXTEND else MOTION_RETRACT, now1⟩) }
  let s3 := if lockedTarget then rackSetExtend i s2 else rackSetRetract i s2
  (s3, now1, [s1.relays, s3.relays])

/-- One rack's slice of void updateMotion(). -/
def updateMotionRack (i : Fin 2) (now : Nat) (s : Sys) : Sys :=
  let rm := get2 s.rackMotion i
  if rm.state = MOTION_IDLE then s
  else if ACTUATOR_MOVE_TIME_MS ≤ usub32 now rm.startMs then
    let s1 := rackSetStop i s
    { s1 with rackMotion := set2 s1.rackMotion i { rm with state := MOTION_IDLE } }
  else s

/-- void updateMotion(): the loop over both racks. -/
def updateMotion (now : Nat) (s : Sys) : Sys :=
  updateMotionRack 1 now (updateMotionRack 0 now s)

-- ==================== AlertNotifier ====================

/-- bool sendViaPhoneGateway.  netOk is the oracle for everything outside the
core: the WiFi-mode check, http.begin and the HTTP response code. -/
def sendViaPhoneGateway (number : String) (message : String) (netOk : Bool) : Bool :=
  if number.length ≠ 11 then false else netOk

/-- bool sendAlertSMS(int rackIdx, ...). -/
def sendAlertSMS (i : Fin 2) (number message : String) (now : Nat) (netOk : Bool)
    (s : Sys) : Bool × Sys :=
  if usub32 now (get2 s.lastSmsMillis i) < SMS_COOLDOWN_MS then (false, s)
  else
    let ok := sendViaPhoneGateway number message netOk
    (ok, if ok then { s with lastSmsMillis := set2 s.lastSmsMillis i now } else s)

-- ==================== LockManager ====================

/-- void setLocked(int rackIndex, bool lockIt). -/
def setLocked (i : Fin 2) (lockIt : Bool) (now : Nat) (s : Sys) :
    Sys × Nat × List (RelayPair × RelayPair) :=
  let r := get2 s.racks i
  let r1 := { r with locked := lockIt
                     tamperLatched := if lockIt then r.tamperLatched else false }
  startMotionForRack i lockIt now { s with racks := set2 s.racks i r1 }

/-- void toggleLock(int rackIndex). -/
def toggleLock (i : Fin 2) (now : Nat) (s : Sys) :
    Sys × Nat × List (RelayPair × RelayPair) :=
  setLocked i (!(get2 s.racks i).locked) now s

-- ==================== PresenceMonitor ====================

/-- One rack's slice of void updateBikePresence(), with raw the sampled
limit-switch value (true = bike present). -/
def presenceRackStep (i : Fin 2) (raw : Bool) (now : Nat) (s : Sys) : Sys :=
  if raw ≠ get2 s.bikePresent i then
    if SW_DEBOUNCE_MS ≤ usub32 now (get2 s.lastSwChangeMs i) then
      { s with lastSwChangeMs := set2 s.lastSwChangeMs i now
               bikePresent := set2 s.bikePresent i raw }
    else s
  else s

/-- void updateBikePresence(). -/
def updateBikePresence (raw : Bool × Bool) (now : Nat) (s : Sys) : Sys :=
  presenceRackStep 1 raw.2 now (presenceRackStep 0 raw.1 now s)

-- ==================== helpers ====================

/-- String maskNumber(const String and n). -/
def maskNumber (n : String) : String :=
  if n.length ≠ 11 then n else n.take 2 ++ "*******" ++ n.drop 9

/-- bool digitsOnly(const String and s). -/
def digitsOnly (s : String) : Bool := s.all fun c => !(c < '0' || '9' < c)

-- ==================== TamperDetector ====================

/-- One iteration of the loop in void checkTamper().  The returned Bool
records whether the tamper branch fired for this rack.  netOk is the
gateway oracle for the possible SMS attempt. -/
def tamperRackStep (i : Fin 2) (now : Nat) (netOk : Bool) (s : Sys) : Sys × Bool :=
  let bikeJustRemoved := get2 s.lastBikePresent i && !(get2 s.bikePresent i)
  let r := get2 s.racks i
  if bikeJustRemoved && r.locked && !r.tamperLatched then
    let s1 : Sys := { s with racks := set2 s.racks i { r with tamperLatched := true } }
    let owner := if r.ownerName.length ≠ 0 then r.ownerName else "Owner"
    let msg := "ALERT! Someone is trying to steal the bike on Rack "
               ++ toString (i.val + 1) ++ ". Bike was lifted while LOCKED. ("
               ++ owner ++ ")"
    let hasNumber := r.ownerNumber.length = 11
    let ok := if hasNumber then (sendAlertSMS i r.ownerNumber msg now netOk s1).1
              else false
    let s2 := if hasNumber then (sendAlertSMS i r.ownerNumber msg now netOk s1).2
              else s1
    let ev := if hasNumber then
                (if ok then "SMS sent: Tamper Rack " ++ toString (i.val + 1)
                 else "SMS FAIL/COOLDOWN: Tamper Rack " ++ toString (i.val + 1))
              else "Tamper but owner # missing (Rack " ++ toString (i.val + 1) ++ ")"
    let s3 := { s2 with lastEvent := ev }
    let s4 := addLogS now ("TAMPER Rack " ++ toString (i.val + 1) ++ " Number "
                ++ maskNumber r.ownerNumber
                ++ (if ok then " SMS_OK" else " SMS_FAIL")) s3
    let s5 := buzzerOnFor 3000 now s4
    ({ s5 with lastBikePresent := set2 s5.lastBikePresent i (get2 s5.bikePresent i) },
     true)
  else
    ({ s with lastBikePresent := set2 s.lastBikePresent i (get2 s.bikePresent i) },
     false)

/-- void checkTamper(): the loop over both racks. -/
def checkTamper (now : Nat) (netOk0 netOk1 : Bool) (s : Sys) : Sys :=
  (tamperRackStep 1 now netOk1 (tamperRackStep 0 now netOk0 s).1).1

-- ==================== SelfServeSession ====================

/-- void resetUi(). -/
def resetUi (s : Sys) : Sys :=
  { s with uiState := UI_IDLE, uiSelectedRack := -1, uiNum := "" }

/-- int findNewestAvailableRack(). -/
def findNewestAvailableRack (s : Sys) : Int :=
  let step := fun (acc : Int × Nat) (i : Fin 2) =>
    if get2 s.bikePresent i && !(get2 s.racks i).locked then
      (if acc.1 = -1 || acc.2 < get2 s.lastSwChangeMs i then
        (Int.ofNat i.val, get2 s.lastSwChangeMs i) else acc)
    else acc
  (step (step (-1, 0) 0) 1).1

/-- bool startSelfServeForCurrentBike().  On failure the source shows
"No Slot" and blocks for 2000 ms; the session state is unchanged. -/
def startSelfServeForCurrentBike (now : Nat) (s : Sys) : Sys × Nat :=
  let rack := findNewestAvailableRack s
  if rack = -1 then (s, now + 2000)
  else ({ s with uiSelectedRack := rack, uiNum := "", uiState := UI_ENTER_NUMBER }, now)

/-- void handleSelfServeKeypad().  k is the character returned by
readRemoteKey(); the source returns immediately when it is 0. -/
def handleSelfServeKeypad (k : Char) (now : Nat) (s : Sys) : Sys × Nat :=
  if k = Char.ofNat 0 then (s, now)
  else if s.uiState = UI_IDLE then
    (if k = '#' then startSelfServeForCurrentBike now s else (s, now))
  else if s.uiState = UI_ENTER_NUMBER then
    if '0' ≤ k ∧ k ≤ '9' then
      ((if s.uiNum.length < 11 then { s with uiNum := s.uiNum.push k } else s), now)
    else if k = '*' then
      (if 0 < s.uiNum.length then ({ s with uiNum := s.uiNum.dropRight 1 }, now)
       else (resetUi s, now))
    else if k = '#' then
      if s.uiNum.length ≠ 11 ∨ digitsOnly s.uiNum = false then
        (s, now + 900)
      else
        let r := get2i s.racks s.uiSelectedRack
        let r1 := { r with ownerNumber := s.uiNum
                           ownerName := if r.ownerName.length = 0 then "Self-Serve"
                                        else r.ownerName }
        let s1 := { s with racks := set2i s.racks s.uiSelectedRack r1
                           lastEvent := "Self-serve set # (Rack "
                             ++ toString (s.uiSelectedRack + 1) ++ ")" }
        let s2 := addLogS now ("SELF-SERVE Rack " ++ toString (s.uiSelectedRack + 1)
                    ++ " Number " ++ maskNumber s.uiNum) s1
        ({ s2 with uiState := UI_WAIT_RFID_LOCK }, now)
    else (s, now)
  else
    (if k = '*' then (resetUi s, now) else (s, now))

-- ==================== Web handlers (post-validation bodies) ====================

/-- void handleToggle(), after the rack argument has been validated. -/
def handleToggle (i : Fin 2) (now : Nat) (s : Sys) : Sys × Nat :=
  let p := toggleLock i now s
  let s1 := { p.1 with lastEvent := "WEB toggle (Rack " ++ toString (i.val + 1) ++ ")" }
  (addLogS p.2.1 ("WEB TOGGLE Rack " ++ toString (i.val + 1)
     ++ (if (get2 s1.racks i).locked then " -> LOCK" else " -> UNLOCK")) s1, p.2.1)

/-- void handleUnlock(), after the rack argument has been validated. -/
def handleUnlock (i : Fin 2) (now : Nat) (s : Sys) : Sys × Nat :=
  let p := setLocked i false now s
  let s1 := { p.1 with lastEvent := "KILL UNLOCK (Rack " ++ toString (i.val + 1) ++ ")" }
  (addLogS p.2.1 ("WEB KILL UNLOCK Rack " ++ toString (i.val + 1)) s1, p.2.1)

/-- void handleClear(), after the rack argument has been validated.
The source clears the owner fields, the locked flag and tamperLatched and
deliberately does not move the actuator. -/
def handleClear (i : Fin 2) (now : Nat) (s : Sys) : Sys :=
  let r := get2 s.racks i
  let s1 := { s with racks := (set2 s.racks i
                       { r with ownerName := "", ownerNumber := ""
                                locked := false, tamperLatched := false })
                     lastEvent := "Session cleared (Rack "
                       ++ toString (i.val + 1) ++ ")" }
  addLogS now ("WEB CLEAR Rack " ++ toString (i.val + 1)) s1

-- ==================== Boot state ====================

def initRack : Rack :=
  { ownerName := "", ownerNumber := "", locked := false, tamperLatched := false }

/-- The state established by setup(): all racks unlocked and unlatched,
motion idle, relays stopped, presence seeded from the first raw switch read,
all timestamps zero, the two boot log lines appended, UI idle.  now is the
boot-time millis() value used for the boot log entries. -/
def initSys (raw : Bool × Bool) (now : Nat) : Sys :=
  { racks := (initRack, initRack)
    rackMotion := (⟨MOTION_IDLE, 0⟩, ⟨MOTION_IDLE, 0⟩)
    relays := (⟨relayOffLevel, relayOffLevel⟩, ⟨relayOffLevel, relayOffLevel⟩)
    bikePresent := raw
    lastBikePresent := raw
    lastSwChangeMs := (0, 0)
    lastSmsMillis := (0, 0)
    logs := addLog now "BOOT System ready" (addLog now "WEB Server started" initLogState)
    uiState := UI_IDLE
    uiSelectedRack := -1
    uiNum := ""
    lastEvent := "System ready (Phone SMS Gateway)"
    buzzerOn := false
    buzzerOffAtMs := 0 }

-- ==================== Operations for reachability ====================

/-- The core operations that mutate rack state, for reachability arguments.
Each carries the millis() value at its invocation and any external oracles. -/
inductive Op where
  | presence (raw : Bool × Bool) (now : Nat)
  | tamper (now : Nat) (netOk0 netOk1 : Bool)
  | lockOp (i : Fin 2) (b : Bool) (now : Nat)
  | webToggle (i : Fin 2) (now : Nat)
  | webUnlock (i : Fin 2) (now : Nat)
  | webClear (i : Fin 2) (now : Nat)
  | keypad (k : Char) (now : Nat)
  | motionTick (now : Nat)

def applyOp (s : Sys) (op : Op) : Sys :=
  match op with
  | .presence raw now => updateBikePresence raw now s
  | .tamper now n0 n1 => checkTamper now n0 n1 s
  | .lockOp i b now => (setLocked i b now s).1
  | .webToggle i now => (handleToggle i now s).1
  | .webUnlock i now => (handleUnlock i now s).1
  | .webClear i now => handleClear i now s
  | .keypad k now => (handleSelfServeKeypad k now s).1
  | .motionTick now => updateMotion now s

def runOps (s : Sys) (ops : List Op) : Sys := ops.foldl applyOp s

/-- The tamper-implies-locked invariant for both racks. -/
def tamperInvB (s : Sys) : Bool :=
  (!s.racks.1.tamperLatched || s.racks.1.locked) &&
  (!s.racks.2.tamperLatched || s.racks.2.locked)

-- ==================== Basic pair-access lemmas ====================

@[simp] lemma get2_set2_self {α : Type} (p : α × α) (i : Fin 2) (x : α) :
    get2 (set2 p i x) i = x := by
  rcases fin2_cases i with rfl | rfl <;> simp

@[simp] lemma set2_set2 {α : Type} (p : α × α) (i : Fin 2) (x y : α) :
    set2 (set2 p i x) i y = set2 p i y := by
  rcases fin2_cases i with rfl | rfl <;> simp

lemma set2_get2 {α : Type} (p : α × α) (i : Fin 2) : set2 p i (get2 p i) = p := by
  rcases fin2_cases i with rfl | rfl <;> simp

-- ==================== setLocked characterization ====================

/-- Drive pattern commanded for a motion target: extend = A on, retract = B on. -/
def drivePattern (lockedTarget : Bool) : RelayPair :=
  if lockedTarget then ⟨relayOnLevel, relayOffLevel⟩ else ⟨relayOffLevel, relayOnLevel⟩

lemma setLocked_spec (i : Fin 2) (b : Bool) (now : Nat) (s : Sys) :
    (setLocked i b now s).1 =
      { s with
          racks := (set2 s.racks i
            { get2 s.racks i with
                locked := b
                tamperLatched := if b then (get2 s.racks i).tamperLatched else false })
          rackMotion := (set2 s.rackMotion i
            ⟨if b then MOTION_EXTEND else MOTION_RETRACT, now + 50⟩)
          relays := set2 s.relays i (drivePattern b) } ∧
    (setLocked i b now s).2.1 = now + 50 ∧
    (setLocked i b now s).2.2 =
      [set2 s.relays i ⟨relayOffLevel, relayOffLevel⟩, set2 s.relays i (drivePattern b)] := by
  rcases fin2_cases i with rfl | rfl <;> cases b <;>
    simp [setLocked, startMotionForRack, rackSetStop, rackSetExtend, rackSetRetract,
      drivePattern]

/-- Claim C5: every call to setLocked(rack, desired) sets the locked flag to
desired, clears tamperLatched when desired is false (unlocking by any path
clears it in the same cycle), and unconditionally starts a full actuator
sequence — extend when desired = true, retract when desired = false — with
the phase-start stamp taken after the 50 ms settling pause, even when the
flag already had the desired value (no branch inspects the old flag). -/
theorem claim_C5 (i : Fin 2) (b : Bool) (now : Nat) (s : Sys) :
    (get2 (setLocked i b now s).1.racks i).locked = b ∧
    (get2 (setLocked i b now s).1.racks i).tamperLatched
      = (b && (get2 s.racks i).tamperLatched) ∧
    (get2 (setLocked i b now s).1.rackMotion i).state
      = (if b then MOTION_EXTEND else MOTION_RETRACT) ∧
    (get2 (setLocked i b now s).1.rackMotion i).startMs = now + 50 ∧
    get2 (setLocked i b now s).1.relays i = drivePattern b := by
  obtain ⟨h1, _, _⟩ := setLocked_spec i b now s
  rw [h1]
  cases b <;> simp

/-- Claim C4: if setLocked is called a second time for the same rack before
the first motion sequence completes, the actuator ends up driving the second
call's direction, with the second call's own 50 ms settling pause stamped as
the phase start, and at no sampled instant during either call are both drive
outputs of that rack at the active level — each start drives both outputs
inactive (the stop-then-reverse guard) before energizing exactly one
direction. -/
theorem claim_C4 (i : Fin 2) (d1 d2 : Bool) (now : Nat) (s : Sys) :
    get2 (setLocked i d2 (setLocked i d1 now s).2.1 (setLocked i d1 now s).1).1.relays i
      = drivePattern d2 ∧
    (get2 (setLocked i d2 (setLocked i d1 now s).2.1
        (setLocked i d1 now s).1).1.rackMotion i).state
      = (if d2 then MOTION_EXTEND else MOTION_RETRACT) ∧
    (get2 (setLocked i d2 (setLocked i d1 now s).2.1
        (setLocked i d1 now s).1).1.rackMotion i).startMs
      = (setLocked i d1 now s).2.1 + 50 ∧
    (((setLocked i d1 now s).2.2 ++
      (setLocked i d2 (setLocked i d1 now s).2.1 (setLocked i d1 now s).1).2.2).all
        fun pr => !((get2 pr i).a == relayOnLevel && (get2 pr i).b == relayOnLevel))
      = true := by
  obtain ⟨h1, h2, h3⟩ := setLocked_spec i d1 now s
  obtain ⟨g1, g2, g3⟩ := setLocked_spec i d2 (setLocked i d1 now s).2.1
    (setLocked i d1 now s).1
  refine ⟨?_, ?_, ?_, ?_⟩
  · rw [g1]; simp
  · rw [g1]; cases d2 <;> simp
  · rw [g1]; simp
  · rw [h3, g3, h1]
    cases d1 <;> cases d2 <;>
      simp [drivePattern, relayOnLevel, relayOffLevel, RELAY_ACTIVE_LOW, LOW, HIGH]

-- ==================== updateMotion lemmas ====================

lemma updateMotionRack_other (j i : Fin 2) (hij : i ≠ j) (now : Nat) (s : Sys) :
    get2 (updateMotionRack j now s).rackMotion i = get2 s.rackMotion i ∧
    get2 (updateMotionRack j now s).relays i = get2 s.relays i ∧
    (updateMotionRack j now s).racks = s.racks := by
  unfold updateMotionRack
  dsimp only
  split
  · exact ⟨rfl, rfl, rfl⟩
  · split
    · refine ⟨?_, ?_, rfl⟩ <;>
        rcases fin2_cases i with rfl | rfl <;> rcases fin2_cases j with rfl | rfl <;>
          simp_all [rackSetStop, get2, set2]
    · exact ⟨rfl, rfl, rfl⟩

lemma updateMotionRack_self_expire (i : Fin 2) (now : Nat) (s : Sys)
    (hne : (get2 s.rackMotion i).state ≠ MOTION_IDLE)
    (helap : ACTUATOR_MOVE_TIME_MS ≤ usub32 now (get2 s.rackMotion i).startMs) :
    get2 (updateMotionRack i now s).rackMotion i
      = { get2 s.rackMotion i with state := MOTION_IDLE } ∧
    get2 (updateMotionRack i now s).relays i = ⟨relayOffLevel, relayOffLevel⟩ := by
  unfold updateMotionRack
  rw [if_neg hne, if_pos helap]
  rcases fin2_cases i with rfl | rfl <;> simp [rackSetStop]

lemma updateMotionRack_self_idle (i : Fin 2) (now : Nat) (s : Sys)
    (hidle : (get2 s.rackMotion i).state = MOTION_IDLE) :
    updateMotionRack i now s = s := by
  unfold updateMotionRack
  rw [if_pos hidle]

/-- Claim C6: for a rack whose motion phase is Extending or Retracting, once
8000 ms have elapsed since the phase-start timestamp (no wraparound of the
32-bit millisecond counter in between), the periodic updateMotion tick sets
that rack's phase to Idle and drives both of its relay outputs to the
inactive level; a rack whose phase is already Idle is left with its motion
record and relay outputs untouched by the tick. -/
theorem claim_C6 (i : Fin 2) (now : Nat) (s : Sys) :
    ((get2 s.rackMotion i).state ≠ MOTION_IDLE →
      (get2 s.rackMotion i).startMs ≤ now →
      (get2 s.rackMotion i).startMs < U32 →
      now - (get2 s.rackMotion i).startMs < U32 →
      (get2 s.rackMotion i).startMs + ACTUATOR_MOVE_TIME_MS ≤ now →
      (get2 (updateMotion now s).rackMotion i).state = MOTION_IDLE ∧
      get2 (updateMotion now s).relays i = ⟨relayOffLevel, relayOffLevel⟩) ∧
    ((get2 s.rackMotion i).state = MOTION_IDLE →
      get2 (updateMotion now s).rackMotion i = get2 s.rackMotion i ∧
      get2 (updateMotion now s).relays i = get2 s.relays i) := by
  constructor
  · intro hne hle h32 hd32 helap
    have helap32 : ACTUATOR_MOVE_TIME_MS ≤ usub32 now (get2 s.rackMotion i).startMs := by
      rw [usub32_eq_sub now _ hle h32 hd32]
      omega
    rcases fin2_cases i with rfl | rfl
    · obtain ⟨e1, e2⟩ := updateMotionRack_self_expire 0 now s hne helap32
      obtain ⟨o1, o2, -⟩ := updateMotionRack_other 1 0 (by decide) now
        (updateMotionRack 0 now s)
      unfold updateMotion
      rw [o1, o2, e1, e2]
      exact ⟨rfl, rfl⟩
    · obtain ⟨o1, o2, -⟩ := updateMotionRack_other 0 1 (by decide) now s
      have hne1 : (get2 (updateMotionRack 0 now s).rackMotion 1).state ≠ MOTION_IDLE := by
        rw [o1]; exact hne
      have helap1 : ACTUATOR_MOVE_TIME_MS ≤
          usub32 now (get2 (updateMotionRack 0 now s).rackMotion 1).startMs := by
        rw [o1]; exact helap32
      obtain ⟨e1, e2⟩ := updateMotionRack_self_expire 1 now
        (updateMotionRack 0 now s) hne1 helap1
      unfold updateMotion
      rw [e1, e2]
      exact ⟨rfl, rfl⟩
  · intro hidle
    rcases fin2_cases i with rfl | rfl
    · have e1 := updateMotionRack_self_idle 0 now s hidle
      unfold updateMotion
      rw [e1]
      obtain ⟨o1, o2, -⟩ := updateMotionRack_other 1 0 (by decide) now s
      exact ⟨o1, o2⟩
    · obtain ⟨o1, o2, -⟩ := updateMotionRack_other 0 1 (by decide) now s
      have hidle1 : (get2 (updateMotionRack 0 now s).rackMotion 1).state = MOTION_IDLE := by
        rw [o1]; exact hidle
      have e1 := updateMotionRack_self_idle 1 now (updateMotionRack 0 now s) hidle1
      unfold updateMotion
      rw [e1]
      exact ⟨o1, o2⟩

/-- Concrete system used to witness claim C6: rack 1 extending since
millis 0, rack 2 idle. -/
def sysC6 : Sys :=
  { initSys (false, false) 0 with
      rackMotion := (⟨MOTION_EXTEND, 0⟩, ⟨MOTION_IDLE, 0⟩)
      relays := (⟨relayOnLevel, relayOffLevel⟩, ⟨relayOffLevel, relayOffLevel⟩) }

theorem claim_C6_witness :
    ((get2 (updateMotion 8000 sysC6).rackMotion 0).state = MOTION_IDLE ∧
     get2 (updateMotion 8000 sysC6).relays 0 = ⟨relayOffLevel, relayOffLevel⟩) ∧
    (get2 (updateMotion 8000 sysC6).rackMotion 1 = get2 sysC6.rackMotion 1 ∧
     get2 (updateMotion 8000 sysC6).relays 1 = get2 sysC6.relays 1) := by
  constructor
  · exact (claim_C6 0 8000 sysC6).1 (by decide) (by decide) (by decide) (by decide)
      (by decide)
  · exact (claim_C6 1 8000 sysC6).2 (by decide)

-- ==================== AlertNotifier lemmas ====================

lemma sendAlertSMS_racks (i : Fin 2) (number message : String) (now : Nat)
    (netOk : Bool) (s : Sys) :
    (sendAlertSMS i number message now netOk s).2.racks = s.racks := by
  unfold sendAlertSMS
  split
  · rfl
  · dsimp only
    split <;> rfl

lemma sendAlertSMS_bike (i : Fin 2) (number message : String) (now : Nat)
    (netOk : Bool) (s : Sys) :
    (sendAlertSMS i number message now netOk s).2.bikePresent = s.bikePresent ∧
    (sendAlertSMS i number message now netOk s).2.lastBikePresent = s.lastBikePresent := by
  unfold sendAlertSMS
  split
  · exact ⟨rfl, rfl⟩
  · dsimp only
    split <;> exact ⟨rfl, rfl⟩

/-- Claim C7: an alert send for a rack is suppressed entirely — result false,
state unchanged, nothing queued — when less than 30000 ms have passed since
that rack's cooldown timestamp; outside the cooldown window the result is
exactly the gateway outcome, a failed delivery leaves the whole state (in
particular the cooldown timestamp) unchanged so the rack stays eligible to
retry once the window measured from the last successful send allows, and the
cooldown timestamp is advanced to now only on a successful delivery. -/
theorem claim_C7 (i : Fin 2) (number message : String) (now : Nat) (netOk : Bool)
    (s : Sys) :
    (usub32 now (get2 s.lastSmsMillis i) < SMS_COOLDOWN_MS →
      sendAlertSMS i number message now netOk s = (false, s)) ∧
    (SMS_COOLDOWN_MS ≤ usub32 now (get2 s.lastSmsMillis i) →
      (sendAlertSMS i number message now netOk s).1
        = sendViaPhoneGateway number message netOk ∧
      ((sendAlertSMS i number message now netOk s).1 = false →
        (sendAlertSMS i number message now netOk s).2 = s) ∧
      ((sendAlertSMS i number message now netOk s).1 = true →
        (sendAlertSMS i number message now netOk s).2
          = { s with lastSmsMillis := set2 s.lastSmsMillis i now })) := by
  constructor
  · intro h
    unfold sendAlertSMS
    rw [if_pos h]
  · intro h
    unfold sendAlertSMS
    rw [if_neg (by omega)]
    dsimp only
    refine ⟨rfl, ?_, ?_⟩ <;> intro hok <;> simp [hok]

theorem claim_C7_witness :
    sendAlertSMS 0 "09171234567" "m" 10 true (initSys (false, false) 0)
      = (false, initSys (false, false) 0) ∧
    (sendAlertSMS 0 "09171234567" "m" 40000 false (initSys (false, false) 0)).2
      = initSys (false, false) 0 := by
  refine ⟨(claim_C7 0 "09171234567" "m" 10 true (initSys (false, false) 0)).1
    (by decide), ?_⟩
  exact ((claim_C7 0 "09171234567" "m" 40000 false
    (initSys (false, false) 0)).2 (by decide)).2.1 (by decide)

-- ==================== Boot-time cooldown gate (claim C10) ====================

lemma initSys_sms (raw : Bool × Bool) (t0 : Nat) (i : Fin 2) :
    get2 (initSys raw t0).lastSmsMillis i = 0 := by
  rcases fin2_cases i with rfl | rfl <;> rfl

lemma sendAlertSMS_suppressed (i : Fin 2) (number message : String) (now : Nat)
    (netOk : Bool) (s : Sys) (h1 : get2 s.lastSmsMillis i = 0)
    (h2 : now < SMS_COOLDOWN_MS) :
    sendAlertSMS i number message now netOk s = (false, s) := by
  unfold sendAlertSMS
  rw [if_pos]
  rw [h1]
  unfold usub32 U32 SMS_COOLDOWN_MS
  unfold SMS_COOLDOWN_MS at h2
  omega

/-- One attempted alert send: rack index, destination, text, millis() value
at the call, gateway oracle. -/
structure Attempt where
  rack : Fin 2
  number : String
  message : String
  now : Nat
  netOk : Bool

/-- Run a sequence of sendAlertSMS calls, collecting their results. -/
def runAttempts (s : Sys) : List Attempt → Sys × List Bool
  | [] => (s, [])
  | a :: rest =>
      let p := sendAlertSMS a.rack a.number a.message a.now a.netOk s
      let q := runAttempts p.2 rest
      (q.1, p.1 :: q.2)

/-- Claim C10: every alert send attempted during the first 30000 ms after
boot is suppressed by the cooldown gate for both racks, even though no
message has ever been delivered, because initSys seeds each rack's
lastSmsMillis entry with 0 and sendAlertSMS compares the elapsed time
against that initial value; the state is also left exactly at the boot
state, so the suppression persists for the whole window. -/
theorem claim_C10 (raw : Bool × Bool) (t0 : Nat) (attempts : List Attempt)
    (h : attempts.all (fun a => a.now < SMS_COOLDOWN_MS) = true) :
    (runAttempts (initSys raw t0) attempts).1 = initSys raw t0 ∧
    (runAttempts (initSys raw t0) attempts).2.all (fun b => !b) = true := by
  induction attempts with
  | nil => exact ⟨rfl, rfl⟩
  | cons a rest ih =>
      simp only [List.all_cons, Bool.and_eq_true] at h
      have hsup := sendAlertSMS_suppressed a.rack a.number a.message a.now a.netOk
        (initSys raw t0) (initSys_sms raw t0 a.rack) (by simpa using h.1)
      have ihr := ih h.2
      unfold runAttempts
      rw [hsup]
      dsimp only
      exact ⟨ihr.1, by simp [ihr.2]⟩

def attemptsC10 : List Attempt :=
  [⟨0, "09171234567", "msg one", 100, true⟩, ⟨1, "09179999999", "msg two", 29999, true⟩]

theorem claim_C10_witness :
    (runAttempts (initSys (false, false) 0) attemptsC10).1 = initSys (false, false) 0 ∧
    (runAttempts (initSys (false, false) 0) attemptsC10).2.all (fun b => !b) = true :=
  claim_C10 (false, false) 0 attemptsC10 (by decide)

-- ==================== TamperDetector lemmas ====================

/-- Derived trigger condition of the branch inside checkTamper's loop:
present in the previous cycle, absent now, currently locked, not yet
latched.  Used only to state the theorems below. -/
def tamperFires (i : Fin 2) (s : Sys) : Bool :=
  get2 s.lastBikePresent i && !(get2 s.bikePresent i)
    && (get2 s.racks i).locked && !(get2 s.racks i).tamperLatched

lemma tamperRackStep_fired (i : Fin 2) (now : Nat) (netOk : Bool) (s : Sys)
    (h : tamperFires i s = true) :
    (tamperRackStep i now netOk s).2 = true ∧
    (tamperRackStep i now netOk s).1.racks
      = set2 s.racks i { get2 s.racks i with tamperLatched := true } ∧
    (tamperRackStep i now netOk s).1.bikePresent = s.bikePresent ∧
    (tamperRackStep i now netOk s).1.lastBikePresent
      = set2 s.lastBikePresent i (get2 s.bikePresent i) := by
  unfold tamperFires at h
  unfold tamperRackStep
  dsimp only
  rw [if_pos h]
  refine ⟨rfl, ?_, ?_, ?_⟩
  · simp only [addLogS, buzzerOnFor]
    split <;> simp [sendAlertSMS_racks]
  · simp only [addLogS, buzzerOnFor]
    split <;> simp [(sendAlertSMS_bike _ _ _ _ _ _).1]
  · simp only [addLogS, buzzerOnFor]
    split <;> simp [(sendAlertSMS_bike _ _ _ _ _ _).1, (sendAlertSMS_bike _ _ _ _ _ _).2]

lemma tamperRackStep_not_fired (i : Fin 2) (now : Nat) (netOk : Bool) (s : Sys)
    (h : tamperFires i s = false) :
    tamperRackStep i now netOk s
      = ({ s with lastBikePresent := set2 s.lastBikePresent i (get2 s.bikePresent i) },
         false) := by
  unfold tamperFires at h
  unfold tamperRackStep
  dsimp only
  rw [if_neg (by simp [h])]

/-- Claim C3: one iteration of checkTamper raises a tamper event for a rack
if and only if the debounced presence was true in the previous cycle and is
false now, the rack is locked, and tamperLatched is not already set; when it
fires it sets tamperLatched (otherwise the rack record is unchanged), so a
second removal while still locked and latched cannot fire again — the
trigger condition contains the negation of tamperLatched, which only an
unlock clears.  The previous-cycle marker is refreshed either way. -/
theorem claim_C3 (i : Fin 2) (now : Nat) (netOk : Bool) (s : Sys) :
    (tamperRackStep i now netOk s).2 = tamperFires i s ∧
    (tamperRackStep i now netOk s).1.racks
      = set2 s.racks i { get2 s.racks i with
          tamperLatched := ((get2 s.racks i).tamperLatched || tamperFires i s) } ∧
    (tamperRackStep i now netOk s).1.lastBikePresent
      = set2 s.lastBikePresent i (get2 s.bikePresent i) ∧
    ((get2 s.racks i).tamperLatched = true → (tamperRackStep i now netOk s).2 = false) := by
  cases h : tamperFires i s with
  | true =>
      obtain ⟨h1, h2, h3, h4⟩ := tamperRackStep_fired i now netOk s h
      have hlatch : (get2 s.racks i).tamperLatched = false := by
        unfold tamperFires at h
        rcases Bool.and_eq_true_iff.mp h with ⟨-, hb⟩
        simpa using hb
      refine ⟨h1, ?_, h4, ?_⟩
      · rw [h2, hlatch]
        simp
      · intro hc
        rw [hlatch] at hc
        exact absurd hc (by simp)
  | false =>
      have h1 := tamperRackStep_not_fired i now netOk s h
      rw [h1]
      refine ⟨rfl, ?_, rfl, fun _ => rfl⟩
      symm
      rw [Bool.or_false]
      exact set2_get2 s.racks i

-- ==================== PresenceMonitor lemmas (claim C2) ====================

/-- Fold one rack's presence update over a list of sample instants, the raw
value being constantly r. -/
def debRun (i : Fin 2) (r : Bool) (ts : List Nat) (s : Sys) : Sys :=
  ts.foldl (fun st u => presenceRackStep i r u st) s

/-- Claim C2 as stated is false on the code: updateBikePresence gates a raw
change on the time elapsed since the LAST ACCEPTED FLIP, not on how long the
raw sample has differed.  Here the debounced value of rack 1 is false and
unchanged since boot (lastSwChangeMs = 0); a single raw true sample at
millis 100 — a differing raw level held for 0 ms < 60 ms — immediately flips
the debounced value to true, which the claim says can never happen. -/
theorem claim_C2_counterexample :
    (presenceRackStep 0 true 100 (initSys (false, false) 0)).bikePresent.1 = true ∧
    (initSys (false, false) 0).bikePresent.1 = false := by
  constructor
  · decide
  · rfl

lemma presenceRackStep_reject (i : Fin 2) (r : Bool) (now : Nat) (s : Sys)
    (h1 : get2 s.lastSwChangeMs i ≤ now)
    (h2 : now < get2 s.lastSwChangeMs i + SW_DEBOUNCE_MS)
    (h3 : get2 s.lastSwChangeMs i < U32) :
    presenceRackStep i r now s = s := by
  unfold presenceRackStep
  split
  · rw [if_neg]
    rw [usub32_eq_sub now _ h1 h3 (by unfold SW_DEBOUNCE_MS at h2; unfold U32; omega)]
    unfold SW_DEBOUNCE_MS at h2 ⊢
    omega
  · rfl

lemma presenceRackStep_accept (i : Fin 2) (r : Bool) (now : Nat) (s : Sys)
    (h0 : r ≠ get2 s.bikePresent i)
    (h1 : get2 s.lastSwChangeMs i + SW_DEBOUNCE_MS ≤ now)
    (h2 : now - get2 s.lastSwChangeMs i < U32)
    (h3 : get2 s.lastSwChangeMs i < U32) :
    presenceRackStep i r now s
      = { s with lastSwChangeMs := set2 s.lastSwChangeMs i now
                 bikePresent := set2 s.bikePresent i r } := by
  unfold presenceRackStep
  rw [if_pos h0, if_pos]
  rw [usub32_eq_sub now _ (by unfold SW_DEBOUNCE_MS at h1; omega) h3 h2]
  unfold SW_DEBOUNCE_MS at h1 ⊢
  omega

lemma presenceRackStep_same (i : Fin 2) (r : Bool) (now : Nat) (s : Sys)
    (h : r = get2 s.bikePresent i) :
    presenceRackStep i r now s = s := by
  unfold presenceRackStep
  rw [if_neg]
  simpa using h

lemma debRun_reject (i : Fin 2) (r : Bool) (ts : List Nat) (s : Sys)
    (h3 : get2 s.lastSwChangeMs i < U32)
    (h : ∀ u ∈ ts, get2 s.lastSwChangeMs i ≤ u ∧
         u < get2 s.lastSwChangeMs i + SW_DEBOUNCE_MS) :
    debRun i r ts s = s := by
  induction ts with
  | nil => rfl
  | cons u rest ih =>
      have hu := h u (List.mem_cons_self u rest)
      have hstep := presenceRackStep_reject i r u s hu.1 hu.2 h3
      unfold debRun at ih ⊢
      rw [List.foldl_cons, hstep]
      exact ih fun v hv => h v (List.mem_cons_of_mem u hv)

lemma debRun_same (i : Fin 2) (r : Bool) (ts : List Nat) (s : Sys)
    (h : r = get2 s.bikePresent i) :
    debRun i r ts s = s := by
  induction ts with
  | nil => rfl
  | cons u rest ih =>
      have hstep := presenceRackStep_same i r u s h
      unfold debRun at ih ⊢
      rw [List.foldl_cons, hstep]
      exact ih

/-- Claim C2, amended to what the code does.  The filter is a lockout
debounce keyed to the last accepted flip: while fewer than 60 ms have
elapsed since the last accepted change of the debounced value, differing raw
samples are ignored (pre below); the first differing sample taken at least
60 ms after the last accepted change is accepted immediately, flipping the
debounced value once and stamping the last-change timestamp with that
sample's instant; once flipped, further samples of the same raw value never
change anything (post below).  In particular a raw change held stable for
at least 60 ms flips the debounced value exactly once, but a short glitch is
only guaranteed to be ignored inside the 60 ms lockout window after a flip,
not in general. -/
theorem claim_C2 (i : Fin 2) (r : Bool) (s : Sys) (pre post : List Nat) (t : Nat)
    (h0 : r ≠ get2 s.bikePresent i)
    (h3 : get2 s.lastSwChangeMs i < U32)
    (hpre : ∀ u ∈ pre, get2 s.lastSwChangeMs i ≤ u ∧
            u < get2 s.lastSwChangeMs i + SW_DEBOUNCE_MS)
    (ht1 : get2 s.lastSwChangeMs i + SW_DEBOUNCE_MS ≤ t)
    (ht2 : t - get2 s.lastSwChangeMs i < U32) :
    debRun i r pre s = s ∧
    debRun i r (pre ++ t :: post) s
      = { s with lastSwChangeMs := set2 s.lastSwChangeMs i t
                 bikePresent := set2 s.bikePresent i r } := by
  have hrej := debRun_reject i r pre s h3 hpre
  have hacc := presenceRackStep_accept i r t s h0 ht1 ht2 h3
  refine ⟨hrej, ?_⟩
  unfold debRun
  rw [List.foldl_append]
  have hrej' : pre.foldl (fun st u => presenceRackStep i r u st) s = s := hrej
  rw [hrej', List.foldl_cons, hacc]
  exact debRun_same i r post _ (by simp)

theorem claim_C2_witness :
    debRun 0 true [10, 59] (initSys (false, false) 0) = initSys (false, false) 0 ∧
    debRun 0 true [10, 59, 60, 70, 100] (initSys (false, false) 0)
      = { initSys (false, false) 0 with
            lastSwChangeMs := (60, 0)
            bikePresent := (true, false) } := by
  have h := claim_C2 0 true (initSys (false, false) 0) [10, 59] [70, 100] 60
    (by decide) (by decide) (by decide) (by decide) (by decide)
  exact h

-- ==================== SelfServeSession lemmas (claim C8) ====================

lemma get2i_set2i {α : Type} (p : α × α) (r : Int) (x : α) :
    get2i (set2i p r x) r = x := by
  by_cases h : r = 0 <;> simp [get2i, set2i, h]

/-- Claim C8: in the EnteringNumber phase a digit key appends to the buffer
only while its length is below 11 (an 11-long buffer ignores further
digits); a back key with a non-empty buffer removes exactly the last
character and stays in EnteringNumber; a back key with an empty buffer
resets the session to Idle; a confirm key whose buffer is not exactly 11
digits leaves the whole state (phase, buffer, racks) unchanged; a confirm
key with an 11-digit buffer stores the buffer as the selected rack's owner
phone, defaults the owner name to the "Self-Serve" placeholder exactly when
it was empty, keeps the selection and buffer, and moves the phase to
AwaitingCredential. -/
theorem claim_C8 (k : Char) (now : Nat) (s : Sys) (h : s.uiState = UI_ENTER_NUMBER) :
    ('0' ≤ k → k ≤ '9' → s.uiNum.length < 11 →
       (handleSelfServeKeypad k now s).1 = { s with uiNum := s.uiNum.push k }) ∧
    ('0' ≤ k → k ≤ '9' → ¬s.uiNum.length < 11 →
       (handleSelfServeKeypad k now s).1 = s) ∧
    (k = '*' → 0 < s.uiNum.length →
       (handleSelfServeKeypad k now s).1 = { s with uiNum := s.uiNum.dropRight 1 }) ∧
    (k = '*' → s.uiNum.length = 0 →
       (handleSelfServeKeypad k now s).1 = resetUi s) ∧
    (k = '#' → (s.uiNum.length ≠ 11 ∨ digitsOnly s.uiNum = false) →
       (handleSelfServeKeypad k now s).1 = s) ∧
    (k = '#' → s.uiNum.length = 11 → digitsOnly s.uiNum = true →
       (handleSelfServeKeypad k now s).1.uiState = UI_WAIT_RFID_LOCK ∧
       (get2i (handleSelfServeKeypad k now s).1.racks s.uiSelectedRack).ownerNumber
         = s.uiNum ∧
       (get2i (handleSelfServeKeypad k now s).1.racks s.uiSelectedRack).ownerName
         = (if (get2i s.racks s.uiSelectedRack).ownerName.length = 0 then "Self-Serve"
            else (get2i s.racks s.uiSelectedRack).ownerName) ∧
       (handleSelfServeKeypad k now s).1.uiSelectedRack = s.uiSelectedRack ∧
       (handleSelfServeKeypad k now s).1.uiNum = s.uiNum) := by
  refine ⟨?_, ?_, ?_, ?_, ?_, ?_⟩
  · intro hd1 hd2 hlen
    have hnul : ¬k = Char.ofNat 0 := by rintro rfl; exact absurd hd1 (by decide)
    unfold handleSelfServeKeypad
    rw [if_neg hnul, if_neg (by rw [h]; decide), if_pos h, if_pos ⟨hd1, hd2⟩,
      if_pos hlen]
  · intro hd1 hd2 hlen
    have hnul : ¬k = Char.ofNat 0 := by rintro rfl; exact absurd hd1 (by decide)
    unfold handleSelfServeKeypad
    rw [if_neg hnul, if_neg (by rw [h]; decide), if_pos h, if_pos ⟨hd1, hd2⟩,
      if_neg hlen]
  · rintro rfl hlen
    unfold handleSelfServeKeypad
    rw [if_neg (by decide), if_neg (by rw [h]; decide), if_pos h, if_neg (by decide),
      if_pos rfl, if_pos hlen]
  · rintro rfl hlen
    unfold handleSelfServeKeypad
    rw [if_neg (by decide), if_neg (by rw [h]; decide), if_pos h, if_neg (by decide),
      if_pos rfl, if_neg (by omega)]
  · rintro rfl hbad
    unfold handleSelfServeKeypad
    rw [if_neg (by decide), if_neg (by rw [h]; decide), if_pos h, if_neg (by decide),
      if_neg (by decide), if_pos rfl, if_pos hbad]
  · rintro rfl hlen hdig
    unfold handleSelfServeKeypad
    rw [if_neg (by decide), if_neg (by rw [h]; decide), if_pos h, if_neg (by decide),
      if_neg (by decide), if_pos rfl, if_neg (by simp [hlen, hdig])]
    dsimp only [addLogS]
    exact ⟨rfl, by simp [get2i_set2i], by simp [get2i_set2i], rfl, rfl⟩

/-- Concrete session state used to witness claim C8: EnteringNumber on rack 1
with buffer "123". -/
def sysC8 : Sys :=
  { initSys (false, false) 0 with
      uiState := UI_ENTER_NUMBER, uiSelectedRack := 0, uiNum := "123" }

theorem claim_C8_witness :
    (handleSelfServeKeypad '*' 0 sysC8).1 = { sysC8 with uiNum := "12" } := by
  have h := ((claim_C8 '*' 0 sysC8 rfl).2.2.1) rfl (by decide)
  rw [h]
  decide

-- ==================== EventLog lemmas (claim C9) ====================

lemma getD_set_self {α : Type} (l : List α) (n : Nat) (a d : α) (h : n < l.length) :
    (l.set n a).getD n d = a := by
  induction l generalizing n with
  | nil => simp at h
  | cons x xs ih =>
      cases n with
      | zero => rfl
      | succ m =>
          have hm : m < xs.length := by simp at h; omega
          exact ih m hm

lemma getD_set_ne {α : Type} (l : List α) (m n : Nat) (a d : α) (h : m ≠ n) :
    (l.set m a).getD n d = l.getD n d := by
  induction l generalizing m n with
  | nil => rfl
  | cons x xs ih =>
      cases m with
      | zero =>
          cases n with
          | zero => exact absurd rfl h
          | succ j => rfl
      | succ i =>
          cases n with
          | zero => rfl
          | succ j => exact ih i j fun he => h (by rw [he])

/-- Fold for appending a list of prepared entries with addLog. -/
def addLogE (st : LogState) (e : LogEntry) : LogState := addLog e.ms e.msg st

lemma addLogE_logs (st : LogState) (e : LogEntry) :
    (addLogE st e).logs = st.logs.set st.logHead ⟨e.ms, e.msg⟩ := rfl

lemma addLogE_head (st : LogState) (e : LogEntry) :
    (addLogE st e).logHead = (st.logHead + 1) % LOG_MAX := rfl

lemma addLogE_count (st : LogState) (e : LogEntry) :
    (addLogE st e).logCount
      = (if st.logCount < LOG_MAX then st.logCount + 1 else st.logCount) := rfl

lemma log_inv (es : List LogEntry) :
    (es.foldl addLogE initLogState).logs.length = LOG_MAX ∧
    (es.foldl addLogE initLogState).logHead = es.length % LOG_MAX ∧
    (es.foldl addLogE initLogState).logCount = min es.length LOG_MAX ∧
    ∀ i, i < (es.foldl addLogE initLogState).logCount →
      (es.foldl addLogE initLogState).logs.getD
          (((es.foldl addLogE initLogState).logHead + LOG_MAX - 1 - i) % LOG_MAX)
          ⟨0, ""⟩
        = es.reverse.getD i ⟨0, ""⟩ := by
  induction es using List.reverseRecOn with
  | nil =>
      refine ⟨by simp [initLogState, LOG_MAX], rfl, rfl, ?_⟩
      intro i hi
      exact absurd hi (by simp [initLogState])
  | append_singleton l e ih =>
      obtain ⟨hlen, hhead, hcount, hget⟩ := ih
      rw [List.foldl_append, List.foldl_cons, List.foldl_nil]
      set st := List.foldl addLogE initLogState l with hst
      simp only [LOG_MAX] at hlen hhead hcount hget ⊢
      have hhead80 : st.logHead < 80 := by rw [hhead]; omega
      have hlenapp : (l ++ [e]).length = l.length + 1 := by simp
      have hhead' : (addLogE st e).logHead = (l.length + 1) % 80 := by
        rw [addLogE_head, hhead]
        simp only [LOG_MAX]
        omega
      have hcount' : (addLogE st e).logCount = min (l.length + 1) 80 := by
        rw [addLogE_count, hcount]
        simp only [LOG_MAX]
        split <;> omega
      have hlen' : (addLogE st e).logs.length = 80 := by
        rw [addLogE_logs, List.length_set]
        exact hlen
      refine ⟨hlen', by rw [hhead', hlenapp], by rw [hcount', hlenapp], ?_⟩
      intro i hi
      rw [hcount'] at hi
      have hrev : (l ++ [e]).reverse = e :: l.reverse := by simp
      cases i with
      | zero =>
          have hidx : ((addLogE st e).logHead + 80 - 1 - 0) % 80 = st.logHead := by
            rw [hhead', hhead]
            omega
          rw [hidx, addLogE_logs,
            getD_set_self st.logs st.logHead ⟨e.ms, e.msg⟩ ⟨0, ""⟩
              (by rw [hlen]; exact hhead80),
            hrev]
          rfl
      | succ j =>
          have hj : j < st.logCount := by rw [hcount]; omega
          have hj78 : j ≤ 78 := by omega
          have hidx : ((addLogE st e).logHead + 80 - 1 - (j + 1)) % 80
              = (st.logHead + 80 - 1 - j) % 80 := by
            rw [hhead', hhead]
            omega
          have hne : st.logHead ≠ (st.logHead + 80 - 1 - j) % 80 := by
            omega
          rw [hidx, addLogE_logs, getD_set_ne _ _ _ _ _ hne, hget j hj, hrev]
          rfl

/-- Claim C9: the event log never holds more than LOG_MAX = 80 entries, and
the status read (logsJson) returns exactly the most recent 80 appended
entries, newest first — i.e. the reverse of append order truncated to 80.
Instantiated at 81 appends this says the oldest original entry is absent and
the newest 80 are all present in newest-first order. -/
theorem claim_C9 (es : List LogEntry) :
    (es.foldl addLogE initLogState).logCount ≤ LOG_MAX ∧
    logsJson (es.foldl addLogE initLogState) = es.reverse.take LOG_MAX := by
  obtain ⟨hlen, hhead, hcount, hget⟩ := log_inv es
  constructor
  · rw [hcount]; unfold LOG_MAX; omega
  · unfold logsJson
    apply List.ext_getElem
    · simp only [List.length_map, List.length_range, List.length_take,
        List.length_reverse]
      rw [hcount]; unfold LOG_MAX; omega
    · intro n h1 h2
      simp only [List.getElem_map, List.getElem_range, List.getElem_take]
      have hn : n < (es.foldl addLogE initLogState).logCount := by
        simpa using h1
      have hnr : n < es.reverse.length := by
        simp only [List.length_reverse]
        rw [hcount] at hn
        omega
      rw [hget n hn, List.getD_eq_getElem es.reverse ⟨0, ""⟩ hnr]

/-- Concrete state used to witness claim C3: rack 1 locked with an
11-digit owner phone, bike present in the previous cycle and absent now,
not yet latched. -/
def sysC3 : Sys :=
  { initSys (false, false) 0 with
      racks := ({ initRack with locked := true, ownerNumber := "09171234567" },
                initRack)
      bikePresent := (false, false)
      lastBikePresent := (true, false) }

/-- Same as sysC3 but with the tamper latch already set: a second removal
attempt while still locked and latched. -/
def sysC3b : Sys :=
  { sysC3 with
      racks := ({ initRack with locked := true, ownerNumber := "09171234567"
                                tamperLatched := true },
                initRack) }

theorem claim_C3_witness :
    (tamperRackStep 0 40000 true sysC3).2 = true ∧
    (tamperRackStep 0 40000 true sysC3b).2 = false := by
  constructor
  · rw [(claim_C3 0 40000 true sysC3).1]
    decide
  · exact (claim_C3 0 40000 true sysC3b).2.2.2 rfl

-- ==================== Invariant preservation (claim C1) ====================

lemma presenceRackStep_racks (i : Fin 2) (r : Bool) (now : Nat) (s : Sys) :
    (presenceRackStep i r now s).racks = s.racks := by
  unfold presenceRackStep
  split
  · split <;> rfl
  · rfl

lemma updateBikePresence_racks (raw : Bool × Bool) (now : Nat) (s : Sys) :
    (updateBikePresence raw now s).racks = s.racks := by
  unfold updateBikePresence
  rw [presenceRackStep_racks, presenceRackStep_racks]

lemma updateMotionRack_racks (j : Fin 2) (now : Nat) (s : Sys) :
    (updateMotionRack j now s).racks = s.racks := by
  unfold updateMotionRack
  dsimp only
  split
  · rfl
  · split <;> rfl

lemma updateMotion_racks (now : Nat) (s : Sys) :
    (updateMotion now s).racks = s.racks := by
  unfold updateMotion
  rw [updateMotionRack_racks, updateMotionRack_racks]

lemma keypad_lock_tamper (k : Char) (now : Nat) (s : Sys) :
    (handleSelfServeKeypad k now s).1.racks.1.locked = s.racks.1.locked ∧
    (handleSelfServeKeypad k now s).1.racks.1.tamperLatched
      = s.racks.1.tamperLatched ∧
    (handleSelfServeKeypad k now s).1.racks.2.locked = s.racks.2.locked ∧
    (handleSelfServeKeypad k now s).1.racks.2.tamperLatched
      = s.racks.2.tamperLatched := by
  unfold handleSelfServeKeypad startSelfServeForCurrentBike resetUi addLogS
  dsimp only
  split_ifs <;>
    first
      | exact ⟨rfl, rfl, rfl, rfl⟩
      | (by_cases hsel : s.uiSelectedRack = 0 <;> simp [set2i, get2i, hsel])

lemma tamperInv_tamperStep (i : Fin 2) (now : Nat) (netOk : Bool) (s : Sys)
    (h : tamperInvB s = true) :
    tamperInvB (tamperRackStep i now netOk s).1 = true := by
  cases hf : tamperFires i s with
  | false =>
      rw [tamperRackStep_not_fired i now netOk s hf]
      simpa [tamperInvB] using h
  | true =>
      obtain ⟨-, h2, -, -⟩ := tamperRackStep_fired i now netOk s hf
      have hlock : (get2 s.racks i).locked = true := by
        unfold tamperFires at hf
        rw [Bool.and_eq_true, Bool.and_eq_true] at hf
        exact hf.1.2
      unfold tamperInvB at h ⊢
      rw [h2]
      rcases fin2_cases i with rfl | rfl <;> simp_all [get2, set2]

lemma tamperInv_setLocked (i : Fin 2) (b : Bool) (now : Nat) (s : Sys)
    (h : tamperInvB s = true) :
    tamperInvB (setLocked i b now s).1 = true := by
  obtain ⟨h1, -, -⟩ := setLocked_spec i b now s
  unfold tamperInvB at h ⊢
  rw [h1]
  rcases fin2_cases i with rfl | rfl <;> cases b <;> simp_all [get2, set2]

lemma tamperInv_handleToggle (i : Fin 2) (now : Nat) (s : Sys)
    (h : tamperInvB s = true) :
    tamperInvB (handleToggle i now s).1 = true := by
  have hs := tamperInv_setLocked i (!(get2 s.racks i).locked) now s h
  simpa [handleToggle, toggleLock, addLogS, tamperInvB] using hs

lemma tamperInv_handleUnlock (i : Fin 2) (now : Nat) (s : Sys)
    (h : tamperInvB s = true) :
    tamperInvB (handleUnlock i now s).1 = true := by
  have hs := tamperInv_setLocked i false now s h
  simpa [handleUnlock, addLogS, tamperInvB] using hs

lemma tamperInv_handleClear (i : Fin 2) (now : Nat) (s : Sys)
    (h : tamperInvB s = true) :
    tamperInvB (handleClear i now s) = true := by
  unfold handleClear addLogS tamperInvB
  dsimp only
  unfold tamperInvB at h
  rcases fin2_cases i with rfl | rfl <;> simp_all [get2, set2]

lemma tamperInv_step (s : Sys) (op : Op) (h : tamperInvB s = true) :
    tamperInvB (applyOp s op) = true := by
  cases op with
  | presence raw now =>
      unfold applyOp
      unfold tamperInvB at h ⊢
      rw [updateBikePresence_racks]
      exact h
  | tamper now n0 n1 =>
      unfold applyOp checkTamper
      exact tamperInv_tamperStep 1 now n1 _ (tamperInv_tamperStep 0 now n0 s h)
  | lockOp i b now => exact tamperInv_setLocked i b now s h
  | webToggle i now => exact tamperInv_handleToggle i now s h
  | webUnlock i now => exact tamperInv_handleUnlock i now s h
  | webClear i now => exact tamperInv_handleClear i now s h
  | keypad k now =>
      obtain ⟨k1, k2, k3, k4⟩ := keypad_lock_tamper k now s
      unfold applyOp
      unfold tamperInvB at h ⊢
      rw [k1, k2, k3, k4]
      exact h
  | motionTick now =>
      unfold applyOp
      unfold tamperInvB at h ⊢
      rw [updateMotion_racks]
      exact h

lemma tamperInv_run (ops : List Op) :
    ∀ s : Sys, tamperInvB s = true → tamperInvB (runOps s ops) = true := by
  induction ops with
  | nil => intro s h; exact h
  | cons op rest ih =>
      intro s h
      exact ih (applyOp s op) (tamperInv_step s op h)

/-- Claim C1: in every state reachable from boot by any sequence of the
core's operations — presence update, tamper check (with any gateway
outcomes), setLocked, web toggle, web force-unlock, web clear-session,
keypad handling, motion tick — tamperLatched implies locked on both racks:
checkTamper only latches a locked rack, every unlock path clears the latch,
and no other operation touches either flag. -/
theorem claim_C1 (raw : Bool × Bool) (t0 : Nat) (ops : List Op) :
    tamperInvB (runOps (initSys raw t0) ops) = true :=
  tamperInv_run ops (initSys raw t0) rfl

end BikeRack
